import Mathlib

/-!
Verification of the lyric synchronization and update-gating engine of the
Spotify Discord Lyrics Status repository.

Shallow embedding conventions:
* JavaScript strings are modelled as `List Char` (`Str`); the length of a
  `Str` models the JS `length` (UTF-16 units) — all length-sensitive
  reasoning below stays in the BMP/ASCII range where the two agree.
* `Date.now()` timestamps are natural numbers; subtractions that may go
  negative in JS are performed in `Int`.
* `String.prototype.toLowerCase()` is modelled character-wise by
  `Char.toLower` (faithful on ASCII).
* Network calls are abstracted by passing the provider / sink response as
  an explicit argument; the functions return the list of payloads they
  would send.
-/

/-- JavaScript strings, modelled as lists of UTF-16-unit-sized characters. -/
abbrev Str := List Char

/-- Characters stripped by `String.prototype.trim`: the ECMAScript
WhiteSpace set (TAB, VT, FF, SP, NBSP, ZWNBSP and the Space_Separator
category) together with the LineTerminator set (LF, CR, LS, PS). -/
def jsIsWs (c : Char) : Bool :=
  c = '\t' || c = '\n' || c.toNat = 11 || c.toNat = 12 || c = '\r' || c = ' '
  || c.toNat = 160 || c.toNat = 5760
  || (8192 ≤ c.toNat && c.toNat ≤ 8202)
  || c.toNat = 8232 || c.toNat = 8233
  || c.toNat = 8239 || c.toNat = 8287 || c.toNat = 12288 || c.toNat = 65279

/-- Characters matched by the JavaScript regex `.` without the `s` flag:
anything except the LineTerminators LF, CR, LS and PS. -/
def jsRegexDot (c : Char) : Bool :=
  !(c = '\n' || c = '\r' || c.toNat = 8232 || c.toNat = 8233)

/-- Model of `s.trim()`: strip leading and trailing whitespace. -/
def jsTrim (s : Str) : Str :=
  ((s.dropWhile jsIsWs).reverse.dropWhile jsIsWs).reverse

/-- One parsed lyric line: `{ time: ms, lyric: string }` (src/utils.js). -/
structure LyricLine where
  time : Nat
  lyric : Str
deriving DecidableEq, Repr

/-- Numeric value of a digit character. -/
def digitVal (c : Char) : Nat := c.toNat - 48

/-- Attempt to match the regex `\[(\d{2}):(\d{2})\.(\d{2})\](.*)` at the
head of the line; on success return the computed millisecond offset
`MM*60000 + SS*1000 + CC*10` and the text captured by `(.*)` — the
characters after the `]` up to the first LineTerminator, since the
JavaScript dot does not match those. Mirrors the match arithmetic of
`parseLRC` in src/utils.js. -/
def tryTag : Str → Option (Nat × Str)
  | '[' :: d1 :: d2 :: ':' :: d3 :: d4 :: '.' :: d5 :: d6 :: ']' :: rest =>
    if d1.isDigit && d2.isDigit && d3.isDigit && d4.isDigit && d5.isDigit && d6.isDigit then
      some ((10 * digitVal d1 + digitVal d2) * 60000
            + (10 * digitVal d3 + digitVal d4) * 1000
            + (10 * digitVal d5 + digitVal d6) * 10, rest.takeWhile jsRegexDot)
    else
      none
  | _ => none

/-- Leftmost regex match: try the pattern at every start position, as the
unanchored `line.match(...)` does. -/
def findTag : Str → Option (Nat × Str)
  | [] => none
  | c :: cs =>
    match tryTag (c :: cs) with
    | some r => some r
    | none => findTag cs

/-- Per-line step of `parseLRC`: a line without a matching tag contributes
nothing; one with a tag contributes `{time, lyric}` unless the trimmed
text is empty. -/
def parseLine (line : Str) : Option LyricLine :=
  match findTag line with
  | none => none
  | some (timeMs, rest) =>
    let lyricText := jsTrim rest
    if lyricText = [] then none else some ⟨timeMs, lyricText⟩

/-- Model of `lrcString.split('\n')`. -/
def splitNl : Str → List Str
  | [] => [[]]
  | c :: cs =>
    if c = '\n' then [] :: splitNl cs
    else
      match splitNl cs with
      | [] => [[c]]
      | l :: ls => (c :: l) :: ls

/-- Body of `parseLRC` (src/utils.js) on a non-null string: split on newlines and
collect the per-line results in document order (forEach + push). -/
def parseLRC (lrcString : Str) : List LyricLine :=
  (splitNl lrcString).filterMap parseLine

/-- Full `parseLRC` including the falsy guard `if (!lrcString) return []`
(null or empty input). -/
def parseLRCOpt : Option Str → List LyricLine
  | none => []
  | some s => if s = [] then [] else parseLRC s

/-- Loop body of `getLyricAtProgress` (src/utils.js): walk the array in
order, remembering the last line whose `time <= progressMs`, and `break`
at the first line past the progress. -/
def lyricScan (progressMs : Int) : List LyricLine → Option Str → Option Str
  | [], currentLyric => currentLyric
  | l :: ls, currentLyric =>
    if (l.time : Int) ≤ progressMs then lyricScan progressMs ls (some l.lyric)
    else currentLyric

/-- Model of `getLyricAtProgress(lyrics, progressMs)` (src/utils.js). -/
def getLyricAtProgress (lyrics : List LyricLine) (progressMs : Int) : Option Str :=
  if lyrics = [] then none else lyricScan progressMs lyrics none

/-- Model of `truncateLyric` (src/utils.js): `maxLength = 128 -
prefix.length`; when the lyric is longer, keep `maxLength - 3` characters
(`substring` clamps a negative end to 0) and append an ellipsis. -/
def truncateLyric (lyric : Str) (pre : Str) : Str :=
  let maxLength : Int := 128 - (pre.length : Int)
  if maxLength < (lyric.length : Int) then
    pre ++ lyric.take (maxLength - 3).toNat ++ "...".toList
  else
    pre ++ lyric

/-- Model of `LyricsCache.generateKey`: lowercase of `` `${trackName}::${artistName}` ``. -/
def generateKey (trackName artistName : Str) : Str :=
  (trackName ++ "::".toList ++ artistName).map Char.toLower

/-- One cache entry: `{ lyrics, timestamp: Date.now() }`. -/
structure CacheEntry where
  lyrics : List LyricLine
  timestamp : Nat
deriving DecidableEq, Repr

/-- The `Map` held by `LyricsCache`, as an association list with distinct
keys (insertion replaces the old binding for the key). -/
abbrev Cache := List (Str × CacheEntry)

/-- Default TTL of `LyricsCache` (10 minutes). -/
def lyricsCacheDefaultTtl : Nat := 600000

/-- Model of `LyricsCache.set(trackName, artistName, lyrics)` with the current
clock as an explicit argument: `Map.set` replaces the binding for the key. -/
def cacheSet (c : Cache) (trackName artistName : Str) (lyrics : List LyricLine)
    (now : Nat) : Cache :=
  let key := generateKey trackName artistName
  (key, ⟨lyrics, now⟩) :: c.filter (fun p => decide (p.1 ≠ key))

/-- Model of `LyricsCache.get(trackName, artistName)`: returns the lyrics when the
entry exists and is fresh; an expired entry (`now - timestamp > ttl`) is
deleted by this read and `null` is returned. The result pairs the returned
value with the cache after the read. -/
def cacheGet (c : Cache) (trackName artistName : Str) (ttl now : Nat) :
    Option (List LyricLine) × Cache :=
  let key := generateKey trackName artistName
  match c.lookup key with
  | none => (none, c)
  | some entry =>
    if (ttl : Int) < (now : Int) - (entry.timestamp : Int) then
      (none, c.filter (fun p => decide (p.1 ≠ key)))
    else
      (some entry.lyrics, c)

/-- Model of `LyricsCache.size()`. -/
def cacheSize (c : Cache) : Nat := c.length

/-- Model of `RateLimiter.canUpdate()` (src/utils.js) with the clock explicit:
returns whether `now - lastUpdate >= threshold`, stamping `lastUpdate`
only when it answers true. -/
def canUpdate (lastUpdate : Nat) (threshold : Nat) (now : Nat) : Bool × Nat :=
  if (threshold : Int) ≤ (now : Int) - (lastUpdate : Int) then (true, now)
  else (false, lastUpdate)

/-- Model of `RateLimiter.reset()`. -/
def rateLimiterReset : Nat := 0

/-- Model of `DiffChecker.hasChanged(lyric)` (src/utils.js): true iff the candidate
differs from `lastLyric`; on true, `lastLyric` advances to the candidate
(even if the rate limiter later suppresses the emission). -/
def hasChanged (lastLyric : Option Str) (lyric : Str) : Bool × Option Str :=
  if some lyric ≠ lastLyric then (true, some lyric) else (false, lastLyric)

/-- Model of `DiffChecker.reset()`. -/
def diffCheckerReset : Option Str := none

/-- The provider payload `response.data` of LRCLIB's `/get`, or `none`
for the no-data / 404 / timeout / transport-error cases (all of which
`fetchLyrics` maps to `null`). -/
structure ProviderData where
  instrumental : Bool
  syncedLyrics : Option Str
  plainLyrics : Option Str
deriving DecidableEq, Repr

/-- The `{instrumental, syncedLyrics, plainLyrics}` record returned by
`LyricsService.fetchLyrics`. -/
structure LyricsData where
  instrumental : Bool
  syncedLyrics : Option Str
  plainLyrics : Option Str
deriving DecidableEq, Repr

/-- Model of `field || null`: a falsy field (absent or empty string) becomes null. -/
def jsOrNull : Option Str → Option Str
  | none => none
  | some s => if s = [] then none else some s

/-- Model of `LyricsService.fetchLyrics` (src/lyricsService.js) over an abstracted
transport: no data or any transport error yields `null`; an instrumental
response yields `{instrumental: true, syncedLyrics: null, plainLyrics:
null}`; otherwise both lyric fields are passed through with `|| null`. -/
def fetchLyrics (response : Option ProviderData) : Option LyricsData :=
  match response with
  | none => none
  | some data =>
    if data.instrumental then some ⟨true, none, none⟩
    else some ⟨false, jsOrNull data.syncedLyrics, jsOrNull data.plainLyrics⟩

/-- Model of `LyricsService.fetchAndParseLyrics`: `null` unless the fetched record
carries synced lyrics, which are then parsed with `parseLRC`. -/
def fetchAndParseLyrics (response : Option ProviderData) : Option (List LyricLine) :=
  match fetchLyrics response with
  | none => none
  | some lyricsData =>
    match lyricsData.syncedLyrics with
    | none => none
    | some synced => some (parseLRCOpt (some synced))

/-- Model of `Math.round(num / den)` for non-negative rationals: JavaScript's
round-half-up, `⌊x + 1/2⌋`. -/
def jsRoundDiv (num den : Nat) : Nat := (2 * num + den) / (2 * den)

/-- Model of `LyricsService.convertPlainToTimed(plainLyrics, duration)`: split the
plain text into non-empty trimmed lines and spread them evenly, line `i`
at `Math.round(i * duration / lineCount)`. -/
def convertPlainToTimed (plainLyrics : Str) (duration : Nat) : List LyricLine :=
  let lines := ((splitNl plainLyrics).map jsTrim).filter (fun l => decide (l ≠ []))
  if lines = [] then []
  else
    lines.mapIdx (fun index lyric => ⟨jsRoundDiv (index * duration) lines.length, lyric⟩)

/-- Model of `LyricsService.searchLyrics`: synced lyrics first; when that yields
`null`, fall back to the plain lyrics converted to an even-split timeline
(skipping instrumentals). Note: the orchestrator never calls this. -/
def searchLyrics (response : Option ProviderData) (duration : Nat) :
    Option (List LyricLine) :=
  match fetchAndParseLyrics response with
  | some parsed => some parsed
  | none =>
    match fetchLyrics response with
    | some lyricsData =>
      match lyricsData.plainLyrics with
      | some plain =>
        if lyricsData.instrumental then none
        else some (convertPlainToTimed plain duration)
      | none => none
    | none => none

/-- Outcome of the HTTP PATCH issued by the Discord status sink. -/
inductive SendOutcome
  | ok
  | err
deriving DecidableEq, Repr

/-- State of `DiscordService`: the last successfully sent status text. -/
structure DiscordState where
  lastStatus : Option Str
deriving DecidableEq, Repr

/-- Model of `DiscordService.setLyricStatus(lyric)` (the Discord service module): the
text is truncated to 128 units first; an unchanged status short-circuits
with no network call; otherwise one PATCH is issued, and `lastStatus` is
updated only when it succeeds. Returns the new state and the list of
network payloads issued. -/
def setLyricStatus (st : DiscordState) (lyric : Str) (outcome : SendOutcome) :
    DiscordState × List Str :=
  let text := lyric.take 128
  if some text = st.lastStatus then (st, [])
  else
    match outcome with
    | .ok => (⟨some text⟩, [text])
    | .err => (st, [text])

/-- A Spotify playback snapshot as consumed by `poll` (src/index.js). -/
structure Track where
  id : Str
  name : Str
  artists : Str
  duration : Nat
  progress : Int
  isPlaying : Bool
deriving DecidableEq, Repr

/-- Side effects `poll` can emit towards the Discord sink. -/
inductive StatusAction
  | clearStatus
  | setStatus (text : Str)
deriving DecidableEq, Repr

/-- Configuration consumed by `poll` (src/index.js CONFIG defaults:
threshold 1000, syncOffset 0, cache enabled). -/
structure BotConfig where
  syncOffset : Int
  threshold : Nat
  cacheEnabled : Bool
deriving DecidableEq, Repr

/-- Mutable orchestrator state of `SpotifyDiscordBot` relevant to `poll`. -/
structure BotState where
  currentTrackId : Option Str
  currentLyrics : Option (List LyricLine)
  lyricsCache : Cache
  diffLast : Option Str
  rateLast : Nat
deriving DecidableEq, Repr

/-- Model of `SpotifyDiscordBot.fetchAndCacheLyrics(track)` (src/index.js): consult
the cache when enabled, else fetch and parse; a non-null result is stored
and cached; errors and misses leave `currentLyrics = null`. Returns the
value assigned to `currentLyrics` and the cache afterwards. -/
def fetchAndCacheLyrics (cacheEnabled : Bool) (cache : Cache) (track : Track)
    (response : Option ProviderData) (now : Nat) : Option (List LyricLine) × Cache :=
  if cacheEnabled then
    match cacheGet cache track.name track.artists lyricsCacheDefaultTtl now with
    | (some cached, cache1) => (some cached, cache1)
    | (none, cache1) =>
      match fetchAndParseLyrics response with
      | some lyrics => (some lyrics, cacheSet cache1 track.name track.artists lyrics now)
      | none => (none, cache1)
  else
    match fetchAndParseLyrics response with
    | some lyrics => (some lyrics, cache)
    | none => (none, cache)

/-- Model of `SpotifyDiscordBot.getCurrentLyric(progressMs)` (src/index.js). -/
def getCurrentLyric (currentLyrics : Option (List LyricLine)) (progressMs : Int) :
    Option Str :=
  match currentLyrics with
  | none => none
  | some l => if l = [] then none else getLyricAtProgress l progressMs

/-- The gate tail of `poll` (src/index.js lines 173-186): the diff check
runs first and advances its cursor on any change; only then is the rate
limiter consulted. The boolean reports whether the status update is sent. -/
def gateStep (diffLast : Option Str) (rateLast : Nat) (threshold : Nat)
    (statusText : Str) (now : Nat) : (Option Str × Nat) × Bool :=
  let c := hasChanged diffLast statusText
  if c.1 then
    let a := canUpdate rateLast threshold now
    ((c.2, a.2), a.1)
  else
    ((c.2, rateLast), false)

/-- Iterate `gateStep` over a timed sequence of candidate status texts,
collecting the emit decisions. -/
def runGate (threshold : Nat) : (Option Str × Nat) → List (Str × Nat) →
    (Option Str × Nat) × List Bool
  | st, [] => (st, [])
  | st, (text, now) :: rest =>
    let r := gateStep st.1 st.2 threshold text now
    let rr := runGate threshold r.1 rest
    (rr.1, r.2 :: rr.2)

/-- One cycle of `SpotifyDiscordBot.poll` (src/index.js), with the Spotify
snapshot, the lyrics-provider response and the clock as explicit inputs.
Returns the new orchestrator state and the Discord side effects. -/
def pollStep (cfg : BotConfig) (st : BotState) (track : Option Track)
    (response : Option ProviderData) (now : Nat) : BotState × List StatusAction :=
  match track with
  | none =>
    if st.currentTrackId ≠ none then
      ({ st with currentTrackId := none, currentLyrics := none,
                 diffLast := diffCheckerReset }, [.clearStatus])
    else (st, [])
  | some t =>
    let st1 :=
      if some t.id ≠ st.currentTrackId then
        let fc := fetchAndCacheLyrics cfg.cacheEnabled st.lyricsCache t response now
        { st with currentTrackId := some t.id, currentLyrics := fc.1,
                  lyricsCache := fc.2, diffLast := diffCheckerReset }
      else st
    if t.isPlaying then
      let progressWithOffset := t.progress + cfg.syncOffset
      let currentLyric := getCurrentLyric st1.currentLyrics progressWithOffset
      let statusText :=
        match jsOrNull currentLyric with
        | some lyric => truncateLyric lyric "♪ ".toList
        | none =>
          match st1.currentLyrics with
          | some l => if 0 < l.length then "🎵 ".toList ++ t.name
                      else "🎵 Listening to ".toList ++ t.name
          | none => "🎵 Listening to ".toList ++ t.name
      let g := gateStep st1.diffLast st1.rateLast cfg.threshold statusText now
      ({ st1 with diffLast := g.1.1, rateLast := g.1.2 },
       if g.2 then [.setStatus statusText] else [])
    else (st1, [])

/-! ## Specification-side definitions (for refinement comparisons) -/

/-- Modelled from the spec: "the text of the last line whose `offsetMs <=
progressMs`, scanning in document order" — the last qualifying line of the
whole document. -/
def lineAtSpec (lyrics : List LyricLine) (progressMs : Int) : Option Str :=
  ((lyrics.filter (fun l => decide ((l.time : Int) ≤ progressMs))).map LyricLine.lyric).getLast?

/-! ## Helper lemmas -/

/-- JavaScript-style `a || b` on options. -/
def oor {α : Type} : Option α → Option α → Option α
  | some a, _ => some a
  | none, b => b

theorem oor_none_right {α : Type} (x : Option α) : oor x none = x := by
  cases x <;> rfl

theorem oor_oor_some {α : Type} (x : Option α) (b : α) (c : Option α) :
    oor (oor x (some b)) c = oor x (some b) := by
  cases x <;> rfl

theorem getLast?_cons_oor {α : Type} (x : α) (xs : List α) :
    (x :: xs).getLast? = oor xs.getLast? (some x) := by
  cases xs with
  | nil => rfl
  | cons y ys =>
    rw [List.getLast?_cons_cons]
    cases hcase : (y :: ys).getLast? with
    | none => simp [List.getLast?] at hcase
    | some z => rfl

/-- On a timeline sorted by offset, the early-`break` scan of
`getLyricAtProgress` computes the last qualifying line of the whole
document (falling back to the accumulator). -/
theorem lyricScan_sorted (p : Int) :
    ∀ (lyrics : List LyricLine),
      List.Sorted (fun a b : LyricLine => a.time ≤ b.time) lyrics →
      ∀ acc, lyricScan p lyrics acc =
        oor ((lyrics.filter (fun l => decide ((l.time : Int) ≤ p))).map LyricLine.lyric).getLast?
          acc := by
  intro lyrics
  induction lyrics with
  | nil => intro _ acc; rfl
  | cons l ls ih =>
    intro hs acc
    rw [List.sorted_cons] at hs
    by_cases h : (l.time : Int) ≤ p
    · rw [lyricScan, if_pos h, ih hs.2 (some l.lyric)]
      rw [List.filter_cons_of_pos (by simpa using h), List.map_cons, getLast?_cons_oor,
        oor_oor_some]
    · rw [lyricScan, if_neg h]
      have hnil : ls.filter (fun l => decide ((l.time : Int) ≤ p)) = [] := by
        rw [List.filter_eq_nil_iff]
        intro x hx
        have := hs.1 x hx
        simp only [decide_eq_true_eq]
        omega
      rw [List.filter_cons_of_neg (by simpa using h), hnil]
      rfl

/-- The three-cue timeline of the spec's lookup example. -/
def exampleTimeline : List LyricLine :=
  [⟨0, "a".toList⟩, ⟨5500, "b".toList⟩, ⟨10250, "c".toList⟩]

/-- A timeline whose offsets are out of document order (a case the parser
never produces but the claim's universal quantifier covers). -/
def unsortedTimeline : List LyricLine :=
  [⟨10, "a".toList⟩, ⟨0, "b".toList⟩]

/-! ## C3 -/

/-- C3 (counterexample): on the out-of-order timeline `[(10,"a"),(0,"b")]`
at progress 5, `getLyricAtProgress` breaks at the first line and returns
none, although the line `(0,"b")` qualifies — so the result is not "the
text of the last line in document order whose offsetMs <= progressMs",
and none is returned even though a line qualifies. -/
theorem c3_counterexample :
    getLyricAtProgress unsortedTimeline 5 = none ∧
    lineAtSpec unsortedTimeline 5 = some "b".toList ∧
    (unsortedTimeline.get ⟨1, by decide⟩).time ≤ 5 := by
  refine ⟨by decide, by decide, by decide⟩

/-- C3 (amended): for every timeline whose offsets are non-decreasing in
document order (the only kind the parser is specified to receive) and
every progress value, `getLyricAtProgress` returns the text of the last
line in document order whose `offsetMs <= progressMs` (ties at equal
offset resolved to the later line), and none if no line qualifies or the
timeline is empty; in particular, on `[(0,"a"),(5500,"b"),(10250,"c")]`
it returns none for t<0, "a" for 0<=t<5500, "b" for 5500<=t<10250 and
"c" for t>=10250. -/
theorem c3_lineAt :
    (∀ (lyrics : List LyricLine),
      List.Sorted (fun a b : LyricLine => a.time ≤ b.time) lyrics →
      ∀ p : Int, getLyricAtProgress lyrics p = lineAtSpec lyrics p) ∧
    (∀ t : Int, t < 0 → getLyricAtProgress exampleTimeline t = none) ∧
    (∀ t : Int, 0 ≤ t → t < 5500 → getLyricAtProgress exampleTimeline t = some "a".toList) ∧
    (∀ t : Int, 5500 ≤ t → t < 10250 → getLyricAtProgress exampleTimeline t = some "b".toList) ∧
    (∀ t : Int, 10250 ≤ t → getLyricAtProgress exampleTimeline t = some "c".toList) := by
  have expand : ∀ t : Int, getLyricAtProgress exampleTimeline t =
      if 0 ≤ t then
        if 5500 ≤ t then if 10250 ≤ t then some "c".toList else some "b".toList
        else some "a".toList
      else none := by
    intro t
    show lyricScan t exampleTimeline none = _
    simp only [exampleTimeline, lyricScan]
    norm_num
  refine ⟨?_, ?_, ?_, ?_, ?_⟩
  · intro lyrics hs p
    unfold getLyricAtProgress lineAtSpec
    by_cases hl : lyrics = []
    · subst hl; rfl
    · rw [if_neg hl, lyricScan_sorted p lyrics hs none, oor_none_right]
  · intro t ht; rw [expand t]; split_ifs <;> first | rfl | omega
  · intro t ht1 ht2; rw [expand t]; split_ifs <;> first | rfl | omega
  · intro t ht1 ht2; rw [expand t]; split_ifs <;> first | rfl | omega
  · intro t ht; rw [expand t]; split_ifs <;> first | rfl | omega

/-- C3 witness: the amended theorem applied at concrete inputs, with the
sortedness and range hypotheses discharged there. -/
theorem c3_lineAt_witness :
    getLyricAtProgress exampleTimeline 6000 = lineAtSpec exampleTimeline 6000 ∧
    getLyricAtProgress exampleTimeline (-1) = none ∧
    getLyricAtProgress exampleTimeline 3 = some "a".toList ∧
    getLyricAtProgress exampleTimeline 6000 = some "b".toList ∧
    getLyricAtProgress exampleTimeline 20000 = some "c".toList :=
  ⟨c3_lineAt.1 exampleTimeline (by decide) 6000,
   c3_lineAt.2.1 (-1) (by decide),
   c3_lineAt.2.2.1 3 (by decide) (by decide),
   c3_lineAt.2.2.2.1 6000 (by decide) (by decide),
   c3_lineAt.2.2.2.2 20000 (by decide)⟩

/-! ## C4 -/

/-- Candidate text "A" of the gate sequence test. -/
def strA : Str := "A".toList

/-- Candidate text "B" of the gate sequence test. -/
def strB : Str := "B".toList

/-- C4: for the candidate sequence A, A (+100ms), B (+200ms), B (+1000ms)
with threshold 1000 ms and initial gate state, exactly one emission occurs
(A at the first tick): the second A is suppressed by the diff check; B at
+200 passes the diff check — leaving lastEmittedText = B — but is
suppressed by the interval check; B at +1000 is suppressed by the diff
check even though the interval check would now allow it (the stamp is
still at the first tick, 1000 ms earlier). Times are wall-clock
(`Date.now()`): `t0` is the clock at the first tick, and the initial
interval stamp is epoch zero, so the first tick of a real clock satisfies
`1000 <= t0`. -/
theorem c4_gate_sequence : ∀ t0 : Nat, 1000 ≤ t0 →
    runGate 1000 (diffCheckerReset, rateLimiterReset)
      [(strA, t0), (strA, t0 + 100), (strB, t0 + 200), (strB, t0 + 1000)] =
      ((some strB, t0), [true, false, false, false]) ∧
    (canUpdate t0 1000 (t0 + 1000)).1 = true := by
  intro t0 h
  have s1 : gateStep diffCheckerReset rateLimiterReset 1000 strA t0 = ((some strA, t0), true) := by
    simp [gateStep, hasChanged, canUpdate, diffCheckerReset, rateLimiterReset, h]
  have s2 : gateStep (some strA) t0 1000 strA (t0 + 100) = ((some strA, t0), false) := by
    simp [gateStep, hasChanged]
  have s3 : gateStep (some strA) t0 1000 strB (t0 + 200) = ((some strB, t0), false) := by
    have hc : ¬ ((1000 : Nat) : Int) ≤ ((t0 + 200 : Nat) : Int) - (t0 : Int) := by
      push_cast; omega
    have hAB : strB ≠ strA := by decide
    simp [gateStep, hasChanged, canUpdate, hc, hAB]
  have s4 : gateStep (some strB) t0 1000 strB (t0 + 1000) = ((some strB, t0), false) := by
    simp [gateStep, hasChanged]
  constructor
  · simp only [runGate, s1, s2, s3, s4]
  · have hD : ((1000 : Nat) : Int) ≤ ((t0 + 1000 : Nat) : Int) - (t0 : Int) := by
      push_cast; omega
    simp [canUpdate, hD]

/-- C4 witness: the gate sequence run with the first tick at clock
100000 ms. -/
theorem c4_gate_sequence_witness :
    runGate 1000 (diffCheckerReset, rateLimiterReset)
      [(strA, 100000), (strA, 100000 + 100), (strB, 100000 + 200), (strB, 100000 + 1000)] =
      ((some strB, 100000), [true, false, false, false]) ∧
    (canUpdate 100000 1000 (100000 + 1000)).1 = true :=
  c4_gate_sequence 100000 (by norm_num)

/-! ## C1 -/

/-- A playing track distinct from the one currently tracked. -/
def trackB : Track :=
  ⟨"t2".toList, "Song B".toList, "Artist".toList, 200000, 500, true⟩

/-- Orchestrator state while tracking `t1`, with the rate limiter stamped
at 5000 ms by the previous track's last emission. -/
def c1State : BotState :=
  ⟨some "t1".toList, some [⟨0, "x".toList⟩], [], some "♪ x".toList, 5000⟩

/-- Default configuration of src/index.js: sync offset 0, rate threshold
1000 ms, cache enabled. -/
def defaultConfig : BotConfig := ⟨0, 1000, true⟩

/-- C1 (counterexample): on a track change at clock 5500 ms from a state
whose interval stamp is 5000 ms, `poll` leaves the interval cursor at
5000 — not epoch zero — and the new track's first distinct candidate
(which passes the freshly reset diff check, advancing it) is suppressed by
the previous track's interval stamp; the stamp equally survives the
transition to no-active-playback. -/
theorem c1_counterexample :
    (pollStep defaultConfig c1State (some trackB) none 5500).1.rateLast = 5000 ∧
    (pollStep defaultConfig c1State (some trackB) none 5500).1.rateLast ≠ rateLimiterReset ∧
    (pollStep defaultConfig c1State (some trackB) none 5500).1.diffLast =
      some "🎵 Listening to Song B".toList ∧
    (pollStep defaultConfig c1State (some trackB) none 5500).2 = [] ∧
    (pollStep defaultConfig c1State none none 5500).1.rateLast = 5000 ∧
    (pollStep defaultConfig c1State none none 5500).1.rateLast ≠ rateLimiterReset := by
  refine ⟨by decide, by decide, by decide, by decide, by decide, by decide⟩

/-- C1 (amended): on a track change and on the transition to
no-active-playback, `poll` resets only the diff cursor
(`lastEmittedText` becomes the none sentinel); the interval cursor
(`RateLimiter.lastUpdate`) is left unchanged — `RateLimiter.reset` is
never invoked — so a distinct candidate arriving within the threshold of
the previous track's interval stamp is blocked by the interval check. -/
theorem c1_gate_reset_diff_only :
    (∀ (cfg : BotConfig) (st : BotState) (response : Option ProviderData) (now : Nat),
      st.currentTrackId ≠ none →
      pollStep cfg st none response now =
        ({ st with currentTrackId := none, currentLyrics := none,
                   diffLast := diffCheckerReset }, [.clearStatus])) ∧
    (∀ (cfg : BotConfig) (st : BotState) (t : Track) (response : Option ProviderData)
        (now : Nat), some t.id ≠ st.currentTrackId → t.isPlaying = false →
      (pollStep cfg st (some t) response now).1.diffLast = diffCheckerReset ∧
      (pollStep cfg st (some t) response now).1.rateLast = st.rateLast) ∧
    (∀ (cfg : BotConfig) (st : BotState) (t : Track) (response : Option ProviderData)
        (now : Nat), some t.id ≠ st.currentTrackId → t.isPlaying = true →
      (now : Int) - (st.rateLast : Int) < (cfg.threshold : Int) →
      (pollStep cfg st (some t) response now).2 = [] ∧
      (pollStep cfg st (some t) response now).1.rateLast = st.rateLast) := by
  refine ⟨?_, ?_, ?_⟩
  · intro cfg st response now h
    simp [pollStep, h]
  · intro cfg st t response now hid hpl
    simp [pollStep, hid, hpl]
  · intro cfg st t response now hid hpl hlt
    have hcan : ∀ text : Str,
        gateStep diffCheckerReset st.rateLast cfg.threshold text now =
          ((some text, st.rateLast), false) := by
      intro text
      have hc : ¬ ((cfg.threshold : Nat) : Int) ≤ (now : Int) - (st.rateLast : Int) := by
        omega
      simp [gateStep, hasChanged, canUpdate, hc, diffCheckerReset]
    simp [pollStep, hid, hpl, hcan]

/-- C1 witness: the amended theorem applied at the concrete track-change
and stop scenarios. -/
theorem c1_gate_reset_diff_only_witness :
    pollStep defaultConfig c1State none none 5500 =
      ({ c1State with currentTrackId := none, currentLyrics := none,
                      diffLast := diffCheckerReset }, [.clearStatus]) ∧
    (pollStep defaultConfig c1State (some trackB) none 5500).2 = [] ∧
    (pollStep defaultConfig c1State (some trackB) none 5500).1.rateLast = c1State.rateLast :=
  ⟨c1_gate_reset_diff_only.1 defaultConfig c1State none 5500 (by decide),
   (c1_gate_reset_diff_only.2.2 defaultConfig c1State trackB none 5500 (by decide) (by decide)
      (by decide)).1,
   (c1_gate_reset_diff_only.2.2 defaultConfig c1State trackB none 5500 (by decide) (by decide)
      (by decide)).2⟩

/-! ## C2 -/

/-- A provider response carrying plain lyrics only: not instrumental, no
synced lyrics. -/
def plainOnlyResponse : Option ProviderData :=
  some ⟨false, none, some "l1\nl2".toList⟩

/-- C2 (counterexample): for a plain-lyrics-only provider result, the
resolution the orchestrator actually invokes on track change
(`fetchAndParseLyrics`, inside `fetchAndCacheLyrics`) returns none and
caches nothing, even though the even-split conversion of those plain
lyrics exists (`convertPlainToTimed` would yield a two-line timeline). -/
theorem c2_counterexample :
    fetchAndParseLyrics plainOnlyResponse = none ∧
    fetchAndCacheLyrics true [] trackB plainOnlyResponse 1000 = (none, []) ∧
    convertPlainToTimed "l1\nl2".toList 4000 =
      [⟨0, "l1".toList⟩, ⟨2000, "l2".toList⟩] := by
  refine ⟨by decide, by decide, by decide⟩

/-- C2 (amended): for every track whose provider result is plain lyrics
only (no synced lyrics, not instrumental), the resolution invoked by the
orchestrator on track change (`fetchAndParseLyrics`) returns none and the
orchestrator caches nothing on a cache miss; the derived even-split
timeline is produced only by `searchLyrics`, which the orchestrator never
calls. -/
theorem c2_plain_only_resolution :
    ∀ (response : Option ProviderData) (plain : Str),
      fetchLyrics response = some ⟨false, none, some plain⟩ →
      (fetchAndParseLyrics response = none ∧
       (∀ d : Nat, searchLyrics response d = some (convertPlainToTimed plain d)) ∧
       (∀ (cache : Cache) (t : Track) (now : Nat),
         (cacheGet cache t.name t.artists lyricsCacheDefaultTtl now).1 = none →
         fetchAndCacheLyrics true cache t response now =
           (none, (cacheGet cache t.name t.artists lyricsCacheDefaultTtl now).2))) := by
  intro response plain h
  have hparse : fetchAndParseLyrics response = none := by
    simp [fetchAndParseLyrics, h]
  refine ⟨hparse, ?_, ?_⟩
  · intro d
    simp [searchLyrics, hparse, h]
  · intro cache t now hmiss
    cases hget : cacheGet cache t.name t.artists lyricsCacheDefaultTtl now with
    | mk v c1 =>
      rw [hget] at hmiss
      simp only at hmiss
      subst hmiss
      simp [fetchAndCacheLyrics, hget, hparse]

/-- C2 witness: the amended theorem applied to the concrete plain-only
response. -/
theorem c2_plain_only_resolution_witness :
    fetchAndParseLyrics plainOnlyResponse = none ∧
    searchLyrics plainOnlyResponse 4000 =
      some (convertPlainToTimed "l1\nl2".toList 4000) ∧
    fetchAndCacheLyrics true [] trackB plainOnlyResponse 1000 =
      (none, (cacheGet [] trackB.name trackB.artists lyricsCacheDefaultTtl 1000).2) :=
  ⟨(c2_plain_only_resolution plainOnlyResponse "l1\nl2".toList (by decide)).1,
   (c2_plain_only_resolution plainOnlyResponse "l1\nl2".toList (by decide)).2.1 4000,
   (c2_plain_only_resolution plainOnlyResponse "l1\nl2".toList (by decide)).2.2 [] trackB 1000
     (by decide)⟩

/-! ## C5 -/

/-- A provider response flagged instrumental. -/
def instrumentalResponse : Option ProviderData := some ⟨true, none, none⟩

/-- A provider not-found / error response. -/
def notFoundResponse : Option ProviderData := none

/-- C5 (counterexample): for an instrumental track the parsed resolution
returns none — exactly the same value as for a not-found track, not a
distinguished empty timeline — and a polling tick produces identical
state and side effects for the two responses, so the downstream fallback
display does not differ from the no-lyrics case. -/
theorem c5_counterexample :
    fetchAndParseLyrics instrumentalResponse = none ∧
    fetchAndParseLyrics notFoundResponse = none ∧
    pollStep defaultConfig c1State (some trackB) instrumentalResponse 5500 =
      pollStep defaultConfig c1State (some trackB) notFoundResponse 5500 := by
  refine ⟨by decide, by decide, by decide⟩

/-- C5 (amended): when the provider reports a track as instrumental, only
`fetchLyrics` distinguishes it, as the flagged record `{instrumental:
true, syncedLyrics: null, plainLyrics: null}`; the resolution used by the
orchestrator (`fetchAndParseLyrics`) collapses it to none, the same value
as not-found, so downstream treats an instrumental track exactly like a
track with no lyrics. -/
theorem c5_instrumental_resolution :
    ∀ data : ProviderData, data.instrumental = true →
      fetchLyrics (some data) = some ⟨true, none, none⟩ ∧
      fetchAndParseLyrics (some data) = none ∧
      fetchAndParseLyrics (some data) = fetchAndParseLyrics notFoundResponse := by
  intro data h
  have hf : fetchLyrics (some data) = some ⟨true, none, none⟩ := by
    simp [fetchLyrics, h]
  have hp : fetchAndParseLyrics (some data) = none := by
    simp only [fetchAndParseLyrics]
    rw [hf]
  exact ⟨hf, hp, by rw [hp]; rfl⟩

/-! ## C6 -/

/-- Splitting at a doubled separator character is unambiguous as long as
the left parts do not contain the separator. -/
theorem append_sep_inj (c : Char) :
    ∀ (l1 l2 r1 r2 : List Char), c ∉ l1 → c ∉ l2 →
      l1 ++ [c, c] ++ r1 = l2 ++ [c, c] ++ r2 → l1 = l2 ∧ r1 = r2 := by
  intro l1
  induction l1 with
  | nil =>
    intro l2 r1 r2 _ h2 heq
    cases l2 with
    | nil => simpa using heq
    | cons b bs =>
      simp only [List.nil_append, List.cons_append, List.cons.injEq] at heq
      exact absurd (heq.1 ▸ List.mem_cons_self b bs) h2
  | cons a as ih =>
    intro l2 r1 r2 h1 h2 heq
    cases l2 with
    | nil =>
      simp only [List.nil_append, List.cons_append, List.cons.injEq] at heq
      exact absurd (heq.1 ▸ List.mem_cons_self a as) (heq.1 ▸ h1)
    | cons b bs =>
      simp only [List.cons_append, List.cons.injEq] at heq
      have h1' : c ∉ as := fun hm => h1 (List.mem_cons_of_mem a hm)
      have h2' : c ∉ bs := fun hm => h2 (List.mem_cons_of_mem b hm)
      obtain ⟨hl, hr⟩ := ih bs r1 r2 h1' h2' heq.2
      exact ⟨by rw [heq.1, hl], hr⟩

/-- C6 (counterexample): the separator `::` is not unambiguous — the pairs
("a::b", "c") and ("a", "b::c") produce the same cache key although their
lowercased titles differ. -/
theorem c6_counterexample :
    generateKey "a::b".toList "c".toList = generateKey "a".toList "b::c".toList ∧
    ("a::b".toList).map Char.toLower ≠ ("a".toList).map Char.toLower := by
  refine ⟨by decide, by decide⟩

/-- C6 (amended): key derivation is injective up to case for inputs whose
lowercased titles contain no ':' character: under that restriction, the
derived keys are equal iff the lowercased titles are equal and the
lowercased performers are equal. (Titles or performers containing "::"
can collide, as the counterexample shows.) -/
theorem c6_key_injective :
    ∀ t1 a1 t2 a2 : Str,
      ':' ∉ t1.map Char.toLower → ':' ∉ t2.map Char.toLower →
      (generateKey t1 a1 = generateKey t2 a2 ↔
        t1.map Char.toLower = t2.map Char.toLower ∧
        a1.map Char.toLower = a2.map Char.toLower) := by
  intro t1 a1 t2 a2 h1 h2
  have hsep : ("::".toList).map Char.toLower = [':', ':'] := by decide
  constructor
  · intro heq
    unfold generateKey at heq
    rw [List.map_append, List.map_append, List.map_append, List.map_append, hsep] at heq
    exact append_sep_inj ':' (t1.map Char.toLower) (t2.map Char.toLower)
      (a1.map Char.toLower) (a2.map Char.toLower) h1 h2 heq
  · intro ⟨ht, ha⟩
    unfold generateKey
    rw [List.map_append, List.map_append, List.map_append, List.map_append, ht, ha]

/-- C6 witness: the amended equivalence applied to concrete inputs, in
both directions. -/
theorem c6_key_injective_witness :
    (generateKey "Song".toList "Artist".toList = generateKey "soNG".toList "ARTist".toList ↔
      ("Song".toList).map Char.toLower = ("soNG".toList).map Char.toLower ∧
      ("Artist".toList).map Char.toLower = ("ARTist".toList).map Char.toLower) :=
  c6_key_injective "Song".toList "Artist".toList "soNG".toList "ARTist".toList
    (by decide) (by decide)

/-! ## C7 -/

theorem tryTag_eq_none_of_head {c : Char} (h : c ≠ '[') (cs : Str) :
    tryTag (c :: cs) = none := by
  unfold tryTag
  split
  · rename_i d1 d2 d3 d4 d5 d6 rest heq
    simp only [List.cons.injEq] at heq
    exact absurd heq.1 h
  · rfl

theorem findTag_eq_none (line : Str) (h : '[' ∉ line) : findTag line = none := by
  induction line with
  | nil => rfl
  | cons c cs ih =>
    have hc : c ≠ '[' := fun e => h (e ▸ List.mem_cons_self c cs)
    have hcs : '[' ∉ cs := fun m => h (List.mem_cons_of_mem c m)
    rw [findTag, tryTag_eq_none_of_head hc cs]
    exact ih hcs

theorem splitNl_append (s1 s2 : Str) (h : '\n' ∉ s1) :
    splitNl (s1 ++ '\n' :: s2) = s1 :: splitNl s2 := by
  induction s1 with
  | nil => simp [splitNl]
  | cons c cs ih =>
    have hc : c ≠ '\n' := fun e => h (e ▸ List.mem_cons_self c cs)
    have hcs : '\n' ∉ cs := fun m => h (List.mem_cons_of_mem c m)
    rw [List.cons_append, splitNl, if_neg hc, ih hcs]

/-- The two-line document of the spec's drop-empty-text test. -/
def c7Example : Str := "[00:01.00]   \n[00:02.00]hello".toList

theorem takeWhile_eq_self (p : Char → Bool) :
    ∀ l : Str, (∀ c ∈ l, p c = true) → l.takeWhile p = l := by
  intro l h
  induction l with
  | nil => rfl
  | cons c cs ih =>
    rw [List.takeWhile_cons, if_pos (h c (List.mem_cons_self c cs)),
      ih (fun x hx => h x (List.mem_cons_of_mem c hx))]

/-- C7: `parseLRC` maps each line carrying a `[MM:SS.CC]` tag (two-digit
fields) to an entry with `offsetMs = MM*60000 + SS*1000 + CC*10` and the
captured trailing text — the characters after the tag up to the first
LineTerminator, since the regex dot excludes those — trimmed of
whitespace, dropping the line when the trimmed capture is empty; on the
common case of a line with no embedded LineTerminator the capture is the
whole rest of the line; lines without a matching tag are ignored; lines
are processed in document order with no re-sorting; empty or null input
yields an empty timeline; and `Parse("[00:01.00]   \n[00:02.00]hello")`
yields exactly one line, offset 2000, text "hello". -/
theorem c7_parse :
    (parseLRCOpt none = [] ∧ parseLRCOpt (some []) = []) ∧
    (parseLRCOpt (some c7Example) = [⟨2000, "hello".toList⟩]) ∧
    (∀ d1 d2 d3 d4 d5 d6 : Char, ∀ rest : Str,
      d1.isDigit = true → d2.isDigit = true → d3.isDigit = true →
      d4.isDigit = true → d5.isDigit = true → d6.isDigit = true →
      parseLine ('[' :: d1 :: d2 :: ':' :: d3 :: d4 :: '.' :: d5 :: d6 :: ']' :: rest) =
        if jsTrim (rest.takeWhile jsRegexDot) = [] then none
        else some ⟨(10 * digitVal d1 + digitVal d2) * 60000
                   + (10 * digitVal d3 + digitVal d4) * 1000
                   + (10 * digitVal d5 + digitVal d6) * 10,
                   jsTrim (rest.takeWhile jsRegexDot)⟩) ∧
    (∀ d1 d2 d3 d4 d5 d6 : Char, ∀ rest : Str,
      d1.isDigit = true → d2.isDigit = true → d3.isDigit = true →
      d4.isDigit = true → d5.isDigit = true → d6.isDigit = true →
      (∀ c ∈ rest, jsRegexDot c = true) →
      parseLine ('[' :: d1 :: d2 :: ':' :: d3 :: d4 :: '.' :: d5 :: d6 :: ']' :: rest) =
        if jsTrim rest = [] then none
        else some ⟨(10 * digitVal d1 + digitVal d2) * 60000
                   + (10 * digitVal d3 + digitVal d4) * 1000
                   + (10 * digitVal d5 + digitVal d6) * 10, jsTrim rest⟩) ∧
    (∀ line : Str, '[' ∉ line → parseLine line = none) ∧
    (∀ s1 s2 : Str, '\n' ∉ s1 →
      parseLRC (s1 ++ '\n' :: s2) = (parseLine s1).toList ++ parseLRC s2) := by
  have tagged : ∀ d1 d2 d3 d4 d5 d6 : Char, ∀ rest : Str,
      d1.isDigit = true → d2.isDigit = true → d3.isDigit = true →
      d4.isDigit = true → d5.isDigit = true → d6.isDigit = true →
      parseLine ('[' :: d1 :: d2 :: ':' :: d3 :: d4 :: '.' :: d5 :: d6 :: ']' :: rest) =
        if jsTrim (rest.takeWhile jsRegexDot) = [] then none
        else some ⟨(10 * digitVal d1 + digitVal d2) * 60000
                   + (10 * digitVal d3 + digitVal d4) * 1000
                   + (10 * digitVal d5 + digitVal d6) * 10,
                   jsTrim (rest.takeWhile jsRegexDot)⟩ := by
    intro d1 d2 d3 d4 d5 d6 rest h1 h2 h3 h4 h5 h6
    have htag : tryTag ('[' :: d1 :: d2 :: ':' :: d3 :: d4 :: '.' :: d5 :: d6 :: ']' :: rest) =
        some ((10 * digitVal d1 + digitVal d2) * 60000
              + (10 * digitVal d3 + digitVal d4) * 1000
              + (10 * digitVal d5 + digitVal d6) * 10, rest.takeWhile jsRegexDot) := by
      simp only [tryTag]
      rw [if_pos (by simp [h1, h2, h3, h4, h5, h6])]
    have hfind :
        findTag ('[' :: d1 :: d2 :: ':' :: d3 :: d4 :: '.' :: d5 :: d6 :: ']' :: rest) =
        some ((10 * digitVal d1 + digitVal d2) * 60000
              + (10 * digitVal d3 + digitVal d4) * 1000
              + (10 * digitVal d5 + digitVal d6) * 10, rest.takeWhile jsRegexDot) := by
      rw [findTag, htag]
    unfold parseLine
    rw [hfind]
  refine ⟨⟨rfl, rfl⟩, by decide, tagged, ?_, ?_, ?_⟩
  · intro d1 d2 d3 d4 d5 d6 rest h1 h2 h3 h4 h5 h6 hdot
    rw [tagged d1 d2 d3 d4 d5 d6 rest h1 h2 h3 h4 h5 h6,
      takeWhile_eq_self jsRegexDot rest hdot]
  · intro line h
    unfold parseLine
    rw [findTag_eq_none line h]
  · intro s1 s2 h
    unfold parseLRC
    rw [splitNl_append s1 s2 h, List.filterMap_cons]
    cases hp : parseLine s1 <;> simp [hp]

/-- C7 witness: the parse theorem applied at concrete inputs (a tagged
line with plain text, a tagged line whose capture is cut off by a
carriage return, an untagged line, and a two-line document), with the
digit, dot and no-newline hypotheses discharged there. -/
theorem c7_parse_witness :
    parseLine ('[' :: '0' :: '0' :: ':' :: '0' :: '2' :: '.' :: '0' :: '0' :: ']'
        :: "hello".toList) = some ⟨2000, "hello".toList⟩ ∧
    parseLine ('[' :: '0' :: '0' :: ':' :: '0' :: '1' :: '.' :: '0' :: '0' :: ']'
        :: "\rfoo".toList) = none ∧
    parseLine "no tag here".toList = none ∧
    parseLRC ("[00:01.00]a".toList ++ '\n' :: "[00:02.00]b".toList) =
      (parseLine "[00:01.00]a".toList).toList ++ parseLRC "[00:02.00]b".toList :=
  ⟨by
    have h := c7_parse.2.2.2.1 '0' '0' '0' '2' '0' '0' "hello".toList
      (by decide) (by decide) (by decide) (by decide) (by decide) (by decide) (by decide)
    rw [h]; decide,
   by
    have h := c7_parse.2.2.1 '0' '0' '0' '1' '0' '0' "\rfoo".toList
      (by decide) (by decide) (by decide) (by decide) (by decide) (by decide)
    rw [h]; decide,
   c7_parse.2.2.2.2.1 "no tag here".toList (by decide),
   c7_parse.2.2.2.2.2 "[00:01.00]a".toList "[00:02.00]b".toList (by decide)⟩

/-! ## C8 -/

set_option maxRecDepth 8192 in
/-- C8 (counterexample): for a 127-character marker and a 10-character
lyric the combined length exceeds 128, yet the truncated output has
length 130 — the "never exceeds 128 units" part of the claim fails for
markers longer than 125 characters (`substring` clamps `maxLength - 3`
below zero and the marker plus ellipsis alone overflow the limit). -/
theorem c8_counterexample :
    128 < (List.replicate 127 'p' : Str).length + (List.replicate 10 'x' : Str).length ∧
    128 < (truncateLyric (List.replicate 10 'x') (List.replicate 127 'p')).length := by
  refine ⟨by decide, by decide⟩

set_option maxRecDepth 8192 in
/-- C8 (amended): for every lyric and every marker of length at most 125
(so that the limit leaves room for the marker and the 3-character
ellipsis; the real marker "♪ " has length 2), the output never exceeds
128 units, and when the combined length would exceed 128 the output has
length exactly 128, starts with the marker and ends in the ellipsis; in
particular a 140-character lyric with the 2-character marker truncates to
total length 128. -/
theorem c8_truncate :
    (∀ (lyric pre : Str), pre.length ≤ 125 →
      ((truncateLyric lyric pre).length ≤ 128 ∧
       (128 < pre.length + lyric.length →
         (truncateLyric lyric pre).length = 128 ∧
         pre <+: truncateLyric lyric pre ∧
         "...".toList <:+ truncateLyric lyric pre))) ∧
    (truncateLyric (List.replicate 140 'x') "♪ ".toList).length = 128 := by
  constructor
  · intro lyric pre hpre
    simp only [truncateLyric]
    split_ifs with h
    · constructor
      · simp only [List.length_append, List.length_take]
        have hell : ("...".toList : Str).length = 3 := by decide
        omega
      · intro _
        refine ⟨?_, (List.prefix_append pre _).trans (List.prefix_append _ _), ?_⟩
        · simp only [List.length_append, List.length_take]
          have hell : ("...".toList : Str).length = 3 := by decide
          omega
        · exact List.suffix_append _ _
    · constructor
      · simp only [List.length_append]
        omega
      · intro hgt
        exact absurd hgt (by omega)
  · decide

set_option maxRecDepth 8192 in
/-- C8 witness: the amended theorem applied to the 140-character lyric
with the real 2-character marker. -/
theorem c8_truncate_witness :
    (truncateLyric (List.replicate 140 'x') "♪ ".toList).length = 128 ∧
    "♪ ".toList <+: truncateLyric (List.replicate 140 'x') "♪ ".toList ∧
    "...".toList <:+ truncateLyric (List.replicate 140 'x') "♪ ".toList :=
  ((c8_truncate.1 (List.replicate 140 'x') "♪ ".toList (by decide)).2 (by decide))

/-! ## C9 -/

/-- A cache holding one entry, stored at clock 0. -/
def c9Cache : Cache := cacheSet [] "t".toList "a".toList [⟨0, "x".toList⟩] 0

/-- C9: a cache entry is reported absent by `get` exactly when it does
not exist or `now - createdAt > ttl`; an expired entry is evicted by that
very read (the size decreases), while any read with `now - createdAt <=
ttl` returns the stored timeline; concretely, for an entry set at t=0
with the default ttl 600000, `get` at t=600001 returns none and the size
drops from 1 to 0, and `get` at t=600000 still returns the timeline. -/
theorem c9_cache_ttl :
    (∀ (c : Cache) (tn an : Str) (ttl now : Nat),
      (cacheGet c tn an ttl now).1 = none ↔
        (List.lookup (generateKey tn an) c = none ∨
         ∃ e : CacheEntry, List.lookup (generateKey tn an) c = some e ∧
           (ttl : Int) < (now : Int) - (e.timestamp : Int))) ∧
    (∀ (c : Cache) (tn an : Str) (ttl now : Nat) (e : CacheEntry),
      List.lookup (generateKey tn an) c = some e →
      (now : Int) - (e.timestamp : Int) ≤ (ttl : Int) →
      cacheGet c tn an ttl now = (some e.lyrics, c)) ∧
    (cacheSize c9Cache = 1 ∧
     cacheGet c9Cache "t".toList "a".toList lyricsCacheDefaultTtl 600001 = (none, []) ∧
     cacheSize (cacheGet c9Cache "t".toList "a".toList lyricsCacheDefaultTtl 600001).2 = 0 ∧
     (cacheGet c9Cache "t".toList "a".toList lyricsCacheDefaultTtl 600000).1 =
       some [⟨0, "x".toList⟩]) := by
  refine ⟨?_, ?_, by decide, by decide, by decide, by decide⟩
  · intro c tn an ttl now
    simp only [cacheGet]
    cases hlk : List.lookup (generateKey tn an) c with
    | none => simp [hlk]
    | some e =>
      by_cases hexp : (ttl : Int) < (now : Int) - (e.timestamp : Int)
      · simp [hlk, hexp]
      · simp [hlk, hexp]
  · intro c tn an ttl now e hlk hfresh
    simp only [cacheGet]
    rw [hlk]
    simp [not_lt.mpr hfresh]

/-- C9 witness: the general clauses applied to the concrete one-entry
cache, with the lookup and freshness hypotheses discharged there. -/
theorem c9_cache_ttl_witness :
    ((cacheGet c9Cache "t".toList "a".toList lyricsCacheDefaultTtl 600001).1 = none ↔
      (List.lookup (generateKey "t".toList "a".toList) c9Cache = none ∨
       ∃ e : CacheEntry, List.lookup (generateKey "t".toList "a".toList) c9Cache = some e ∧
         (lyricsCacheDefaultTtl : Int) < (600001 : Int) - (e.timestamp : Int))) ∧
    cacheGet c9Cache "t".toList "a".toList lyricsCacheDefaultTtl 600000 =
      (some [⟨0, "x".toList⟩], c9Cache) :=
  ⟨c9_cache_ttl.1 c9Cache "t".toList "a".toList lyricsCacheDefaultTtl 600001,
   c9_cache_ttl.2.1 c9Cache "t".toList "a".toList lyricsCacheDefaultTtl 600000
     ⟨[⟨0, "x".toList⟩], 0⟩ (by decide) (by decide)⟩

/-! ## C10 -/

/-- C10: the Discord status sink truncates its input to the first 128
units before anything else — every network payload it issues equals that
truncation and never exceeds 128 units — and it makes no network call at
all when the truncated text equals the last successfully sent status;
`lastStatus` advances only on a successful send (a failed PATCH leaves
it unchanged), a second diff layer independent of the orchestrator's
gate. -/
theorem c10_sink :
    ∀ (st : DiscordState) (lyric : Str) (outcome : SendOutcome),
      (∀ t ∈ (setLyricStatus st lyric outcome).2, t = lyric.take 128 ∧ t.length ≤ 128) ∧
      (some (lyric.take 128) = st.lastStatus →
        setLyricStatus st lyric outcome = (st, [])) ∧
      (some (lyric.take 128) ≠ st.lastStatus →
        ((setLyricStatus st lyric outcome).2 = [lyric.take 128] ∧
         (outcome = SendOutcome.ok →
           (setLyricStatus st lyric outcome).1 = ⟨some (lyric.take 128)⟩) ∧
         (outcome = SendOutcome.err →
           (setLyricStatus st lyric outcome).1 = st))) := by
  intro st lyric outcome
  have hlen : (lyric.take 128).length ≤ 128 := by
    rw [List.length_take]
    omega
  by_cases h : some (lyric.take 128) = st.lastStatus
  · refine ⟨?_, fun _ => by simp [setLyricStatus, h], fun hne => absurd h hne⟩
    intro t ht
    simp [setLyricStatus, h] at ht
  · refine ⟨?_, fun he => absurd he h, fun _ => ?_⟩
    · intro t ht
      cases outcome <;> simp [setLyricStatus, h] at ht <;> simp [ht, hlen]
    · cases outcome <;> simp [setLyricStatus, h]

/-- C10 witness: the sink theorem applied at a concrete state and lyric,
with the diff hypotheses discharged there. -/
theorem c10_sink_witness :
    setLyricStatus ⟨some "hi".toList⟩ "hi".toList SendOutcome.ok =
      (⟨some "hi".toList⟩, []) ∧
    (setLyricStatus ⟨none⟩ "hi".toList SendOutcome.ok).2 = ["hi".toList] ∧
    (setLyricStatus ⟨none⟩ "hi".toList SendOutcome.err).1 = ⟨none⟩ :=
  ⟨(c10_sink ⟨some "hi".toList⟩ "hi".toList SendOutcome.ok).2.1 (by decide),
   ((c10_sink ⟨none⟩ "hi".toList SendOutcome.ok).2.2 (by decide)).1,
   ((c10_sink ⟨none⟩ "hi".toList SendOutcome.err).2.2 (by decide)).2.2 rfl⟩

/-- C5 witness: the amended theorem applied to the concrete instrumental
response. -/
theorem c5_instrumental_resolution_witness :
    fetchLyrics instrumentalResponse = some ⟨true, none, none⟩ ∧
    fetchAndParseLyrics instrumentalResponse = none :=
  ⟨(c5_instrumental_resolution ⟨true, none, none⟩ (by decide)).1,
   (c5_instrumental_resolution ⟨true, none, none⟩ (by decide)).2.1⟩
